import Mathlib

/-!
# CharityDonation — a shallow embedding of `src/contracts/CharityDonation.sol`

The contract is modelled as a state machine: `State` mirrors the contract's
storage (plus the contract's own ether balance, the reentrancy-guard flag and
the emitted event log), and every external function becomes a Lean function
`State → args → Except Err State`.  EVM revert semantics are captured by
`Except`: an `.error` outcome leaves the caller's state unchanged
(`applyOp` commits `.ok` results and keeps the pre-state on `.error`), which
is exactly what a Solidity `require`/`revert` does to storage.

Error constructors are named after the contract's revert reasons; the spec's
error taxonomy maps onto them as follows:
`NotFound` = `invalidCharityId` / `invalidProposalId`,
`Unauthorized` = `notAdmin` / `onlyCharityWallet`,
`Inactive` = `charityNotActive`,
`InvalidAmount` = `invalidAmount`,
`AlreadyProcessed` = `alreadyProcessed`,
`NothingToWithdraw` = `noFundsToWithdraw`,
`TransferFailed` = `transferFailed`,
`ReentrantCall` = `reentrantCall`.

Addresses, amounts and timestamps are modelled as `Nat` (the contract never
exercises 256-bit overflow: donations only add and `withdrawFunds` only
subtracts an amount it just read).
-/

namespace CharityDonation

/-- An account address (`address` in Solidity); the zero address is `0`. -/
abbrev Address := Nat

/-- Mirror of `struct Charity` in `CharityDonation.sol`. -/
structure Charity where
  id : Nat
  name : String
  description : String
  walletAddress : Address
  totalReceived : Nat
  isActive : Bool
deriving Repr, DecidableEq

/-- Mirror of `struct CharityProposal` in `CharityDonation.sol`. -/
structure CharityProposal where
  id : Nat
  name : String
  description : String
  walletAddress : Address
  proposer : Address
  isProcessed : Bool
  isApproved : Bool
deriving Repr, DecidableEq

/-- Mirror of `struct Donation` in `CharityDonation.sol` (one ledger entry). -/
structure Donation where
  donor : Address
  charityId : Nat
  amount : Nat
  timestamp : Nat
deriving Repr, DecidableEq

/-- Mirror of `struct Donor` in `CharityDonation.sol` (a leaderboard row). -/
structure Donor where
  donorAddress : Address
  totalDonated : Nat
deriving Repr, DecidableEq

/-- The events the contract can emit. -/
inductive Event where
  | DonationReceived (donor : Address) (charityId : Nat) (amount : Nat) (timestamp : Nat)
  | CharityProposed (proposer : Address) (name : String) (walletAddress : Address)
      (proposalId : Nat)
  | CharityApproved (charityId : Nat) (name : String) (walletAddress : Address)
  | CharityRejected (proposalId : Nat) (name : String)
  | FundsWithdrawn (charityId : Nat) (recipient : Address) (amount : Nat)
  | CharityStatusChanged (charityId : Nat) (isActive : Bool)
deriving Repr, DecidableEq

/-- Revert reasons of `CharityDonation.sol`, one constructor per `require`
string (plus the OpenZeppelin reentrancy-guard revert). -/
inductive Err where
  | invalidCharityId
  | charityNotActive
  | invalidAmount
  | notAdmin
  | emptyName
  | invalidWalletAddress
  | invalidProposalId
  | alreadyProcessed
  | onlyCharityWallet
  | noFundsToWithdraw
  | transferFailed
  | reentrantCall
  | useDonate
  | noSuchFunction
deriving Repr, DecidableEq

/-- The zero value of `struct Charity`: what a Solidity mapping returns for an
unallocated charity id. -/
def emptyCharity : Charity :=
  { id := 0, name := "", description := "", walletAddress := 0,
    totalReceived := 0, isActive := false }

/-- The zero value of `struct CharityProposal`. -/
def emptyProposal : CharityProposal :=
  { id := 0, name := "", description := "", walletAddress := 0, proposer := 0,
    isProcessed := false, isApproved := false }

/-- The contract's storage, its ether balance (`address(this).balance`), the
reentrancy-guard flag of `ReentrancyGuardUpgradeable` and the emitted events. -/
structure State where
  charityCount : Nat
  proposalCount : Nat
  totalDonations : Nat
  charities : Nat → Charity
  proposals : Nat → CharityProposal
  donorTotalDonations : Address → Nat
  charityBalances : Nat → Nat
  isDonor : Address → Bool
  donationHistory : List Donation
  donorAddresses : List Address
  balance : Nat
  locked : Bool
  adminRole : Address → Bool
  defaultAdminRole : Address → Bool
  eventLog : List Event

/-- The `onlyAdmin` modifier's test:
`hasRole(ADMIN_ROLE, a) || hasRole(DEFAULT_ADMIN_ROLE, a)`. -/
def isAdmin (s : State) (a : Address) : Bool :=
  s.adminRole a || s.defaultAdminRole a

/-- Internal `_addCharity`: increments `charityCount` and stores a fresh, active
charity with zero `totalReceived` under the new id. -/
def addCharity (s : State) (name description : String) (wallet : Address) : State :=
  let n := s.charityCount + 1
  { s with
    charityCount := n
    charities := fun j =>
      if j = n then
        { id := n, name := name, description := description,
          walletAddress := wallet, totalReceived := 0, isActive := true }
      else s.charities j }

/-- The hardcoded genesis payout address seeded by `initialize()`. -/
def unicefWallet : Address := 0x1890217121689101121181911124618911017811

/-- The state right after `initialize()` run by `deployer`: both roles granted
to the deployer, one seeded charity ("UNICEF"), and everything else zero. -/
def initialState (deployer : Address) : State :=
  addCharity
    { charityCount := 0
      proposalCount := 0
      totalDonations := 0
      charities := fun _ => emptyCharity
      proposals := fun _ => emptyProposal
      donorTotalDonations := fun _ => 0
      charityBalances := fun _ => 0
      isDonor := fun _ => false
      donationHistory := []
      donorAddresses := []
      balance := 0
      locked := false
      adminRole := fun a => a = deployer
      defaultAdminRole := fun a => a = deployer
      eventLog := [] }
    "UNICEF" "Children's rights and development advocacy" unicefWallet

/-- Function `donate(_charityId)` called by `sender` with `msg.value = value` at
`block.timestamp = timestamp`.  Check order follows the source: the
`validCharity` modifier (id range, then active flag) runs before
`nonReentrant`, then the body's positive-amount `require`.  On success the
attached value has entered the contract's balance and every effect of the
body is applied; the guard is released on return. -/
def donate (s : State) (sender : Address) (charityId : Nat) (value : Nat)
    (timestamp : Nat) : Except Err State :=
  if ¬ (0 < charityId ∧ charityId ≤ s.charityCount) then .error .invalidCharityId
  else if ¬ (s.charities charityId).isActive then .error .charityNotActive
  else if s.locked then .error .reentrantCall
  else if ¬ 0 < value then .error .invalidAmount
  else
    let c := s.charities charityId
    .ok { s with
      balance := s.balance + value
      charities := fun j =>
        if j = charityId then { c with totalReceived := c.totalReceived + value }
        else s.charities j
      charityBalances := fun j =>
        if j = charityId then s.charityBalances charityId + value
        else s.charityBalances j
      totalDonations := s.totalDonations + value
      isDonor := fun a => if a = sender then true else s.isDonor a
      donorAddresses :=
        if s.isDonor sender then s.donorAddresses else s.donorAddresses ++ [sender]
      donorTotalDonations := fun a =>
        if a = sender then s.donorTotalDonations sender + value
        else s.donorTotalDonations a
      donationHistory :=
        s.donationHistory ++
          [{ donor := sender, charityId := charityId, amount := value,
             timestamp := timestamp }]
      eventLog :=
        s.eventLog ++ [.DonationReceived sender charityId value timestamp] }

/-- Function `proposeCharity(_name, _description, _walletAddress)` called by `sender`. -/
def proposeCharity (s : State) (sender : Address) (name description : String)
    (wallet : Address) : Except Err State :=
  if name.length = 0 then .error .emptyName
  else if wallet = 0 then .error .invalidWalletAddress
  else
    let n := s.proposalCount + 1
    .ok { s with
      proposalCount := n
      proposals := fun j =>
        if j = n then
          { id := n, name := name, description := description,
            walletAddress := wallet, proposer := sender,
            isProcessed := false, isApproved := false }
        else s.proposals j
      eventLog := s.eventLog ++ [.CharityProposed sender name wallet n] }

/-- Function `approveCharity(_proposalId)`: admin-only; marks the proposal processed
and approved, then `_addCharity` copies its fields into a new charity. -/
def approveCharity (s : State) (sender : Address) (proposalId : Nat) :
    Except Err State :=
  if ¬ isAdmin s sender then .error .notAdmin
  else if ¬ (0 < proposalId ∧ proposalId ≤ s.proposalCount) then
    .error .invalidProposalId
  else if (s.proposals proposalId).isProcessed then .error .alreadyProcessed
  else
    let p := s.proposals proposalId
    let s1 : State :=
      { s with proposals := fun j =>
          if j = proposalId then { p with isProcessed := true, isApproved := true }
          else s.proposals j }
    let s2 := addCharity s1 p.name p.description p.walletAddress
    .ok { s2 with
      eventLog := s2.eventLog ++ [.CharityApproved s2.charityCount p.name p.walletAddress] }

/-- Function `rejectCharity(_proposalId)`: admin-only; marks the proposal processed
(and not approved) without creating any charity. -/
def rejectCharity (s : State) (sender : Address) (proposalId : Nat) :
    Except Err State :=
  if ¬ isAdmin s sender then .error .notAdmin
  else if ¬ (0 < proposalId ∧ proposalId ≤ s.proposalCount) then
    .error .invalidProposalId
  else if (s.proposals proposalId).isProcessed then .error .alreadyProcessed
  else
    let p := s.proposals proposalId
    .ok { s with
      proposals := fun j =>
        if j = proposalId then { p with isProcessed := true, isApproved := false }
        else s.proposals j
      eventLog := s.eventLog ++ [.CharityRejected proposalId p.name] }

/-- The contract state at the moment `withdrawFunds(charityId)` performs its
external `call{value: balance}`: the guard is held, the escrow entry is
already zeroed (checks-effects-interactions) and the read balance has left
the contract.  This is the state any reentrant callback executes in. -/
def withdrawMid (s : State) (charityId : Nat) : State :=
  { s with
    locked := true
    charityBalances := fun j => if j = charityId then 0 else s.charityBalances j
    balance := s.balance - s.charityBalances charityId }

/-- Function `withdrawFunds(_charityId)` called by `sender`; `transferOk` is whether
the recipient's receive path accepts the external transfer.  The
`nonReentrant` modifier's check runs first; the body checks id range, caller
identity and a positive escrow balance, zeroes the entry, transfers, and on a
failed transfer the whole call reverts (the `.error` outcome restores the
pre-state). -/
def withdrawFunds (s : State) (sender : Address) (charityId : Nat)
    (transferOk : Bool) : Except Err State :=
  if s.locked then .error .reentrantCall
  else if ¬ (0 < charityId ∧ charityId ≤ s.charityCount) then .error .invalidCharityId
  else if sender ≠ (s.charities charityId).walletAddress then .error .onlyCharityWallet
  else if ¬ 0 < s.charityBalances charityId then .error .noFundsToWithdraw
  else
    let mid := withdrawMid s charityId
    if transferOk then
      .ok { mid with
        locked := false
        eventLog := mid.eventLog ++
          [.FundsWithdrawn charityId (s.charities charityId).walletAddress
            (s.charityBalances charityId)] }
    else .error .transferFailed

/-- Function `toggleCharityStatus(_charityId)`: admin-only; flips the active flag and
emits `CharityStatusChanged`. -/
def toggleCharityStatus (s : State) (sender : Address) (charityId : Nat) :
    Except Err State :=
  if ¬ isAdmin s sender then .error .notAdmin
  else if ¬ (0 < charityId ∧ charityId ≤ s.charityCount) then .error .invalidCharityId
  else
    let c := s.charities charityId
    .ok { s with
      charities := fun j =>
        if j = charityId then { c with isActive := !c.isActive } else s.charities j
      eventLog := s.eventLog ++ [.CharityStatusChanged charityId (!c.isActive)] }

/-- Fallback `receive()`: any plain value transfer reverts
("Please use the donate function"). -/
def receiveEther (_s : State) (_sender : Address) (_value : Nat) : Except Err State :=
  .error .useDonate

/-- Fallback `fallback()`: any call to a non-existent function reverts
("Function does not exist"). -/
def fallbackEther (_s : State) (_sender : Address) (_value : Nat) : Except Err State :=
  .error .noSuchFunction

/-- View `getAllDonors()`: each index-tracked donor paired with its running total,
in insertion order into `donorAddresses`. -/
def getAllDonors (s : State) : List Donor :=
  s.donorAddresses.map fun a =>
    { donorAddress := a, totalDonated := s.donorTotalDonations a }

/-- The zero value of `struct Donation` (never actually read: the source
loop's indices are always in bounds). -/
def emptyDonation : Donation :=
  { donor := 0, charityId := 0, amount := 0, timestamp := 0 }

/-- View `getRecentDonations(_limit)`: `recent[i] = donationHistory[len - 1 - i]`
for `i < min _limit len`, exactly as the source loop computes it. -/
def getRecentDonations (s : State) (limit : Nat) : List Donation :=
  let historyLen := s.donationHistory.length
  let count := if limit < historyLen then limit else historyLen
  (List.range count).map fun i =>
    s.donationHistory.getD (historyLen - 1 - i) emptyDonation

/-- View `getContractBalance()`. -/
def getContractBalance (s : State) : Nat := s.balance

/-- One external transaction against the contract. -/
inductive Op where
  | donate (sender charityId value timestamp : Nat)
  | propose (sender : Nat) (name description : String) (wallet : Nat)
  | approve (sender proposalId : Nat)
  | reject (sender proposalId : Nat)
  | withdraw (sender charityId : Nat) (transferOk : Bool)
  | toggle (sender charityId : Nat)
  | plainTransfer (sender value : Nat)
  | unknownCall (sender value : Nat)

/-- Commit a call outcome: an `.ok` result becomes the new state, a revert
(`.error`) leaves the chain state exactly as it was. -/
def commit (s : State) : Except Err State → State
  | .ok s1 => s1
  | .error _ => s

/-- Run one transaction. -/
def applyOp (s : State) : Op → State
  | .donate sender charityId value timestamp =>
      commit s (donate s sender charityId value timestamp)
  | .propose sender name description wallet =>
      commit s (proposeCharity s sender name description wallet)
  | .approve sender proposalId => commit s (approveCharity s sender proposalId)
  | .reject sender proposalId => commit s (rejectCharity s sender proposalId)
  | .withdraw sender charityId transferOk =>
      commit s (withdrawFunds s sender charityId transferOk)
  | .toggle sender charityId => commit s (toggleCharityStatus s sender charityId)
  | .plainTransfer sender value => commit s (receiveEther s sender value)
  | .unknownCall sender value => commit s (fallbackEther s sender value)

/-- Run a sequence of transactions. -/
def execOps (s : State) (ops : List Op) : State := ops.foldl applyOp s

/-- The sum of all escrow balances, `sum(charityBalances[r] for r in 1..charityCount)`. -/
def escrowSum (s : State) : Nat :=
  Finset.sum (Finset.Icc 1 s.charityCount) s.charityBalances

/-- Accounting invariant: the ether the contract holds is exactly the sum of
the escrow balances, and no escrow entry exists outside the allocated id
range. -/
def BalancedState (s : State) : Prop :=
  s.balance = escrowSum s ∧ ∀ j, s.charityCount < j → s.charityBalances j = 0

lemma sum_update_add (n id v : Nat) (f : Nat → Nat) (h1 : 0 < id) (h2 : id ≤ n) :
    Finset.sum (Finset.Icc 1 n) (fun j => if j = id then f id + v else f j)
      = Finset.sum (Finset.Icc 1 n) f + v := by
  have hmem : id ∈ Finset.Icc 1 n := Finset.mem_Icc.mpr ⟨h1, h2⟩
  have hfun : ∀ j, (if j = id then f id + v else f j)
      = f j + (if j = id then v else 0) := by
    intro j
    by_cases h : j = id
    · subst h; simp
    · simp [h]
  calc Finset.sum (Finset.Icc 1 n) (fun j => if j = id then f id + v else f j)
      = Finset.sum (Finset.Icc 1 n) (fun j => f j + (if j = id then v else 0)) := by
        exact Finset.sum_congr rfl fun j _ => hfun j
    _ = Finset.sum (Finset.Icc 1 n) f
          + Finset.sum (Finset.Icc 1 n) (fun j => if j = id then v else 0) :=
        Finset.sum_add_distrib
    _ = Finset.sum (Finset.Icc 1 n) f + v := by
        rw [Finset.sum_ite_eq' (Finset.Icc 1 n) id (fun _ => v), if_pos hmem]

lemma sum_update_zero (n id : Nat) (f : Nat → Nat) (h1 : 0 < id) (h2 : id ≤ n) :
    Finset.sum (Finset.Icc 1 n) (fun j => if j = id then 0 else f j) + f id
      = Finset.sum (Finset.Icc 1 n) f := by
  have hmem : id ∈ Finset.Icc 1 n := Finset.mem_Icc.mpr ⟨h1, h2⟩
  have hfun : ∀ j, f j = (if j = id then 0 else f j) + (if j = id then f id else 0) := by
    intro j
    by_cases h : j = id
    · subst h; simp
    · simp [h]
  calc Finset.sum (Finset.Icc 1 n) (fun j => if j = id then 0 else f j) + f id
      = Finset.sum (Finset.Icc 1 n) (fun j => if j = id then 0 else f j)
          + Finset.sum (Finset.Icc 1 n) (fun j => if j = id then f id else 0) := by
        rw [Finset.sum_ite_eq' (Finset.Icc 1 n) id (fun _ => f id), if_pos hmem]
    _ = Finset.sum (Finset.Icc 1 n)
          (fun j => (if j = id then 0 else f j) + (if j = id then f id else 0)) :=
        Finset.sum_add_distrib.symm
    _ = Finset.sum (Finset.Icc 1 n) f :=
        Finset.sum_congr rfl fun j _ => (hfun j).symm

lemma sum_extend (n : Nat) (f : Nat → Nat) (h : f (n + 1) = 0) :
    Finset.sum (Finset.Icc 1 (n + 1)) f = Finset.sum (Finset.Icc 1 n) f := by
  rw [Finset.sum_Icc_succ_top (Nat.le_add_left 1 n) f, h, Nat.add_zero]

lemma balanced_initial (deployer : Address) : BalancedState (initialState deployer) := by
  constructor
  · rfl
  · intro j hj
    rfl

lemma donate_ok_inv {s s' : State} {sender charityId value timestamp : Nat}
    (hok : donate s sender charityId value timestamp = .ok s') :
    (0 < charityId ∧ charityId ≤ s.charityCount)
    ∧ (s.charities charityId).isActive = true
    ∧ s.locked = false
    ∧ 0 < value
    ∧ s'.charityCount = s.charityCount
    ∧ s'.proposalCount = s.proposalCount
    ∧ s'.balance = s.balance + value
    ∧ s'.totalDonations = s.totalDonations + value
    ∧ s'.locked = s.locked
    ∧ s'.charityBalances = (fun j =>
        if j = charityId then s.charityBalances charityId + value
        else s.charityBalances j)
    ∧ s'.charities = (fun j =>
        if j = charityId then
          { s.charities charityId with
            totalReceived := (s.charities charityId).totalReceived + value }
        else s.charities j)
    ∧ s'.isDonor = (fun a => if a = sender then true else s.isDonor a)
    ∧ s'.donorAddresses =
        (if s.isDonor sender then s.donorAddresses else s.donorAddresses ++ [sender])
    ∧ s'.donorTotalDonations = (fun a =>
        if a = sender then s.donorTotalDonations sender + value
        else s.donorTotalDonations a)
    ∧ s'.donationHistory = s.donationHistory ++
        [{ donor := sender, charityId := charityId, amount := value,
           timestamp := timestamp }]
    ∧ s'.proposals = s.proposals
    ∧ s'.adminRole = s.adminRole
    ∧ s'.defaultAdminRole = s.defaultAdminRole := by
  unfold donate at hok
  split at hok
  · exact Except.noConfusion hok
  rename_i h1
  split at hok
  · exact Except.noConfusion hok
  rename_i h2
  split at hok
  · exact Except.noConfusion hok
  rename_i h3
  split at hok
  · exact Except.noConfusion hok
  rename_i h4
  injection hok with hs
  subst hs
  exact ⟨Decidable.not_not.mp h1, Decidable.not_not.mp h2, Bool.eq_false_iff.mpr h3,
    Decidable.not_not.mp h4, rfl, rfl, rfl, rfl, rfl, rfl, rfl, rfl, rfl, rfl, rfl,
    rfl, rfl, rfl⟩

lemma withdrawFunds_ok_inv {s s' : State} {sender charityId : Nat} {transferOk : Bool}
    (hok : withdrawFunds s sender charityId transferOk = .ok s') :
    s.locked = false
    ∧ (0 < charityId ∧ charityId ≤ s.charityCount)
    ∧ sender = (s.charities charityId).walletAddress
    ∧ 0 < s.charityBalances charityId
    ∧ transferOk = true
    ∧ s'.charityCount = s.charityCount
    ∧ s'.proposalCount = s.proposalCount
    ∧ s'.balance = s.balance - s.charityBalances charityId
    ∧ s'.totalDonations = s.totalDonations
    ∧ s'.locked = false
    ∧ s'.charityBalances = (fun j =>
        if j = charityId then 0 else s.charityBalances j)
    ∧ s'.charities = s.charities
    ∧ s'.proposals = s.proposals
    ∧ s'.isDonor = s.isDonor
    ∧ s'.donorAddresses = s.donorAddresses
    ∧ s'.donorTotalDonations = s.donorTotalDonations
    ∧ s'.donationHistory = s.donationHistory
    ∧ s'.adminRole = s.adminRole
    ∧ s'.defaultAdminRole = s.defaultAdminRole
    ∧ s'.eventLog = s.eventLog ++
        [.FundsWithdrawn charityId (s.charities charityId).walletAddress
          (s.charityBalances charityId)] := by
  unfold withdrawFunds at hok
  split at hok
  · exact Except.noConfusion hok
  rename_i h1
  split at hok
  · exact Except.noConfusion hok
  rename_i h2
  split at hok
  · exact Except.noConfusion hok
  rename_i h3
  split at hok
  · exact Except.noConfusion hok
  rename_i h4
  split at hok
  · rename_i h5
    injection hok with hs
    subst hs
    exact ⟨Bool.eq_false_iff.mpr h1, Decidable.not_not.mp h2, Decidable.not_not.mp h3,
      Decidable.not_not.mp h4, h5, rfl, rfl, rfl, rfl, rfl, rfl, rfl, rfl, rfl, rfl,
      rfl, rfl, rfl, rfl, rfl⟩
  · exact Except.noConfusion hok

lemma approveCharity_ok_inv {s s' : State} {sender proposalId : Nat}
    (hok : approveCharity s sender proposalId = .ok s') :
    isAdmin s sender = true
    ∧ (0 < proposalId ∧ proposalId ≤ s.proposalCount)
    ∧ (s.proposals proposalId).isProcessed = false
    ∧ s'.charityCount = s.charityCount + 1
    ∧ s'.proposalCount = s.proposalCount
    ∧ s'.balance = s.balance
    ∧ s'.totalDonations = s.totalDonations
    ∧ s'.locked = s.locked
    ∧ s'.charityBalances = s.charityBalances
    ∧ s'.charities = (fun j =>
        if j = s.charityCount + 1 then
          { id := s.charityCount + 1, name := (s.proposals proposalId).name,
            description := (s.proposals proposalId).description,
            walletAddress := (s.proposals proposalId).walletAddress,
            totalReceived := 0, isActive := true }
        else s.charities j)
    ∧ s'.proposals = (fun j =>
        if j = proposalId then
          { s.proposals proposalId with isProcessed := true, isApproved := true }
        else s.proposals j)
    ∧ s'.isDonor = s.isDonor
    ∧ s'.donorAddresses = s.donorAddresses
    ∧ s'.donorTotalDonations = s.donorTotalDonations
    ∧ s'.donationHistory = s.donationHistory
    ∧ s'.adminRole = s.adminRole
    ∧ s'.defaultAdminRole = s.defaultAdminRole := by
  unfold approveCharity at hok
  split at hok
  · exact Except.noConfusion hok
  rename_i h1
  split at hok
  · exact Except.noConfusion hok
  rename_i h2
  split at hok
  · exact Except.noConfusion hok
  rename_i h3
  injection hok with hs
  subst hs
  exact ⟨Decidable.not_not.mp h1, Decidable.not_not.mp h2, Bool.eq_false_iff.mpr h3,
    rfl, rfl, rfl, rfl, rfl, rfl, rfl, rfl, rfl, rfl, rfl, rfl, rfl, rfl⟩

lemma rejectCharity_ok_inv {s s' : State} {sender proposalId : Nat}
    (hok : rejectCharity s sender proposalId = .ok s') :
    isAdmin s sender = true
    ∧ (0 < proposalId ∧ proposalId ≤ s.proposalCount)
    ∧ (s.proposals proposalId).isProcessed = false
    ∧ s'.charityCount = s.charityCount
    ∧ s'.proposalCount = s.proposalCount
    ∧ s'.balance = s.balance
    ∧ s'.totalDonations = s.totalDonations
    ∧ s'.locked = s.locked
    ∧ s'.charityBalances = s.charityBalances
    ∧ s'.charities = s.charities
    ∧ s'.proposals = (fun j =>
        if j = proposalId then
          { s.proposals proposalId with isProcessed := true, isApproved := false }
        else s.proposals j)
    ∧ s'.isDonor = s.isDonor
    ∧ s'.donorAddresses = s.donorAddresses
    ∧ s'.donorTotalDonations = s.donorTotalDonations
    ∧ s'.donationHistory = s.donationHistory
    ∧ s'.adminRole = s.adminRole
    ∧ s'.defaultAdminRole = s.defaultAdminRole := by
  unfold rejectCharity at hok
  split at hok
  · exact Except.noConfusion hok
  rename_i h1
  split at hok
  · exact Except.noConfusion hok
  rename_i h2
  split at hok
  · exact Except.noConfusion hok
  rename_i h3
  injection hok with hs
  subst hs
  exact ⟨Decidable.not_not.mp h1, Decidable.not_not.mp h2, Bool.eq_false_iff.mpr h3,
    rfl, rfl, rfl, rfl, rfl, rfl, rfl, rfl, rfl, rfl, rfl, rfl, rfl, rfl⟩

lemma proposeCharity_ok_inv {s s' : State} {sender : Nat} {name description : String}
    {wallet : Nat} (hok : proposeCharity s sender name description wallet = .ok s') :
    name.length ≠ 0
    ∧ wallet ≠ 0
    ∧ s'.charityCount = s.charityCount
    ∧ s'.proposalCount = s.proposalCount + 1
    ∧ s'.balance = s.balance
    ∧ s'.locked = s.locked
    ∧ s'.charityBalances = s.charityBalances
    ∧ s'.charities = s.charities
    ∧ s'.isDonor = s.isDonor
    ∧ s'.donorAddresses = s.donorAddresses
    ∧ s'.donationHistory = s.donationHistory := by
  unfold proposeCharity at hok
  split at hok
  · exact Except.noConfusion hok
  rename_i h1
  split at hok
  · exact Except.noConfusion hok
  rename_i h2
  injection hok with hs
  subst hs
  exact ⟨h1, h2, rfl, rfl, rfl, rfl, rfl, rfl, rfl, rfl, rfl⟩

lemma toggleCharityStatus_ok_inv {s s' : State} {sender charityId : Nat}
    (hok : toggleCharityStatus s sender charityId = .ok s') :
    isAdmin s sender = true
    ∧ (0 < charityId ∧ charityId ≤ s.charityCount)
    ∧ s'.charityCount = s.charityCount
    ∧ s'.proposalCount = s.proposalCount
    ∧ s'.balance = s.balance
    ∧ s'.totalDonations = s.totalDonations
    ∧ s'.locked = s.locked
    ∧ s'.charityBalances = s.charityBalances
    ∧ s'.charities = (fun j =>
        if j = charityId then
          { s.charities charityId with isActive := !(s.charities charityId).isActive }
        else s.charities j)
    ∧ s'.proposals = s.proposals
    ∧ s'.isDonor = s.isDonor
    ∧ s'.donorAddresses = s.donorAddresses
    ∧ s'.donorTotalDonations = s.donorTotalDonations
    ∧ s'.donationHistory = s.donationHistory
    ∧ s'.adminRole = s.adminRole
    ∧ s'.defaultAdminRole = s.defaultAdminRole
    ∧ s'.eventLog = s.eventLog ++
        [.CharityStatusChanged charityId (!(s.charities charityId).isActive)] := by
  unfold toggleCharityStatus at hok
  split at hok
  · exact Except.noConfusion hok
  rename_i h1
  split at hok
  · exact Except.noConfusion hok
  rename_i h2
  injection hok with hs
  subst hs
  exact ⟨Decidable.not_not.mp h1, Decidable.not_not.mp h2, rfl, rfl, rfl, rfl, rfl,
    rfl, rfl, rfl, rfl, rfl, rfl, rfl, rfl, rfl, rfl⟩

lemma donate_ok_balanced {s s' : State} {sender charityId value timestamp : Nat}
    (h : BalancedState s)
    (hok : donate s sender charityId value timestamp = .ok s') :
    BalancedState s' := by
  obtain ⟨⟨hc1, hc2⟩, -, -, -, hcount, -, hbal, -, -, hcb, -⟩ := donate_ok_inv hok
  constructor
  · have hes : escrowSum s' = escrowSum s + value := by
      rw [escrowSum, hcount, hcb]
      exact sum_update_add s.charityCount charityId value s.charityBalances hc1 hc2
    rw [hes, hbal, h.1]
  · intro j hj
    rw [hcount] at hj
    have hne : j ≠ charityId := by omega
    simp only [hcb, if_neg hne]
    exact h.2 j hj

lemma withdrawFunds_ok_balanced {s s' : State} {sender charityId : Nat}
    {transferOk : Bool} (h : BalancedState s)
    (hok : withdrawFunds s sender charityId transferOk = .ok s') :
    BalancedState s' := by
  obtain ⟨-, ⟨hc1, hc2⟩, -, -, -, hcount, -, hbal, -, -, hcb, -⟩ :=
    withdrawFunds_ok_inv hok
  have hsum := sum_update_zero s.charityCount charityId s.charityBalances hc1 hc2
  constructor
  · have hes : escrowSum s' + s.charityBalances charityId = escrowSum s := by
      rw [escrowSum, hcount, hcb]
      exact hsum
    rw [hbal, h.1]
    omega
  · intro j hj
    rw [hcount] at hj
    by_cases hje : j = charityId
    · simp only [hcb, if_pos hje]
    · simp only [hcb, if_neg hje]
      exact h.2 j hj

lemma approveCharity_ok_balanced {s s' : State} {sender proposalId : Nat}
    (h : BalancedState s) (hok : approveCharity s sender proposalId = .ok s') :
    BalancedState s' := by
  obtain ⟨-, -, -, hcount, -, hbal, -, -, hcb, -⟩ := approveCharity_ok_inv hok
  constructor
  · have hz : s.charityBalances (s.charityCount + 1) = 0 :=
      h.2 (s.charityCount + 1) (Nat.lt_succ_self _)
    have hes : escrowSum s' = escrowSum s := by
      rw [escrowSum, hcount, hcb]
      exact sum_extend s.charityCount s.charityBalances hz
    rw [hes, hbal, h.1]
  · intro j hj
    rw [hcount] at hj
    rw [hcb]
    exact h.2 j (by omega)

lemma rejectCharity_ok_balanced {s s' : State} {sender proposalId : Nat}
    (h : BalancedState s) (hok : rejectCharity s sender proposalId = .ok s') :
    BalancedState s' := by
  obtain ⟨-, -, -, hcount, -, hbal, -, -, hcb, -⟩ := rejectCharity_ok_inv hok
  constructor
  · have hes : escrowSum s' = escrowSum s := by rw [escrowSum, hcount, hcb]; rfl
    rw [hes, hbal, h.1]
  · intro j hj
    rw [hcount] at hj
    rw [hcb]
    exact h.2 j hj

lemma proposeCharity_ok_balanced {s s' : State} {sender : Nat}
    {name description : String} {wallet : Nat} (h : BalancedState s)
    (hok : proposeCharity s sender name description wallet = .ok s') :
    BalancedState s' := by
  obtain ⟨-, -, hcount, -, hbal, -, hcb, -⟩ := proposeCharity_ok_inv hok
  constructor
  · have hes : escrowSum s' = escrowSum s := by rw [escrowSum, hcount, hcb]; rfl
    rw [hes, hbal, h.1]
  · intro j hj
    rw [hcount] at hj
    rw [hcb]
    exact h.2 j hj

lemma toggleCharityStatus_ok_balanced {s s' : State} {sender charityId : Nat}
    (h : BalancedState s) (hok : toggleCharityStatus s sender charityId = .ok s') :
    BalancedState s' := by
  obtain ⟨-, -, hcount, -, hbal, -, -, hcb, -⟩ := toggleCharityStatus_ok_inv hok
  constructor
  · have hes : escrowSum s' = escrowSum s := by rw [escrowSum, hcount, hcb]; rfl
    rw [hes, hbal, h.1]
  · intro j hj
    rw [hcount] at hj
    rw [hcb]
    exact h.2 j hj

lemma balanced_commit {s : State} (r : Except Err State) (h : BalancedState s)
    (hok : ∀ s', r = .ok s' → BalancedState s') : BalancedState (commit s r) := by
  cases r with
  | ok s1 => exact hok s1 rfl
  | error e => exact h

/-- One transaction of any kind preserves the accounting invariant. -/
lemma balanced_applyOp (s : State) (op : Op) (h : BalancedState s) :
    BalancedState (applyOp s op) := by
  cases op with
  | donate sender charityId value timestamp =>
      exact balanced_commit _ h fun s' hok => donate_ok_balanced h hok
  | propose sender name description wallet =>
      exact balanced_commit _ h fun s' hok => proposeCharity_ok_balanced h hok
  | approve sender proposalId =>
      exact balanced_commit _ h fun s' hok => approveCharity_ok_balanced h hok
  | reject sender proposalId =>
      exact balanced_commit _ h fun s' hok => rejectCharity_ok_balanced h hok
  | withdraw sender charityId transferOk =>
      exact balanced_commit _ h fun s' hok => withdrawFunds_ok_balanced h hok
  | toggle sender charityId =>
      exact balanced_commit _ h fun s' hok => toggleCharityStatus_ok_balanced h hok
  | plainTransfer sender value =>
      exact balanced_commit _ h fun s' hok => Except.noConfusion hok
  | unknownCall sender value =>
      exact balanced_commit _ h fun s' hok => Except.noConfusion hok

lemma balanced_execOps (s : State) (ops : List Op) (h : BalancedState s) :
    BalancedState (execOps s ops) := by
  induction ops generalizing s with
  | nil => exact h
  | cons op rest ih => exact ih (applyOp s op) (balanced_applyOp s op h)

/-- Concrete scenario: deployed by account 7. -/
def sc0 : State := initialState 7

/-- Concrete scenario: account 5 donated 100 to charity 1. -/
def sc1 : State := applyOp sc0 (.donate 5 1 100 0)

/-- Concrete scenario: charity 1's wallet then withdrew its escrow. -/
def sc2 : State := applyOp sc1 (.withdraw unicefWallet 1 true)

/-- C1: starting from the initialized state, the contract's held balance
(`getContractBalance`) equals the sum of `charityBalances` over all charity
ids after every sequence of transactions (so in particular at every point
between calls); a successful `donate` adds its amount to exactly one escrow
entry and to the held balance; a successful `withdrawFunds` zeroes exactly
the one escrow entry and removes exactly that amount from the held balance;
and untagged value transfers (`receive`/`fallback`) always revert, so no
other path changes the held balance. -/
theorem conservation_of_value :
    (∀ deployer ops,
        getContractBalance (execOps (initialState deployer) ops)
          = escrowSum (execOps (initialState deployer) ops))
  ∧ (∀ s s' sender charityId value timestamp,
        donate s sender charityId value timestamp = .ok s' →
          s'.charityBalances charityId = s.charityBalances charityId + value
          ∧ (∀ j, j ≠ charityId → s'.charityBalances j = s.charityBalances j)
          ∧ s'.balance = s.balance + value)
  ∧ (∀ s s' sender charityId transferOk,
        withdrawFunds s sender charityId transferOk = .ok s' →
          s'.charityBalances charityId = 0
          ∧ (∀ j, j ≠ charityId → s'.charityBalances j = s.charityBalances j)
          ∧ s'.balance = s.balance - s.charityBalances charityId)
  ∧ (∀ s sender value, receiveEther s sender value = .error .useDonate)
  ∧ (∀ s sender value, fallbackEther s sender value = .error .noSuchFunction) := by
  refine ⟨?_, ?_, ?_, fun _ _ _ => rfl, fun _ _ _ => rfl⟩
  · intro deployer ops
    exact (balanced_execOps (initialState deployer) ops (balanced_initial deployer)).1
  · intro s s' sender charityId value timestamp hok
    obtain ⟨-, -, -, -, -, -, hbal, -, -, hcb, -⟩ := donate_ok_inv hok
    refine ⟨?_, ?_, hbal⟩
    · simp [hcb]
    · intro j hj
      simp only [hcb, if_neg hj]
  · intro s s' sender charityId transferOk hok
    obtain ⟨-, -, -, -, -, -, -, hbal, -, -, hcb, -⟩ := withdrawFunds_ok_inv hok
    refine ⟨?_, ?_, hbal⟩
    · simp [hcb]
    · intro j hj
      simp only [hcb, if_neg hj]

/-- Closed witness for `conservation_of_value` on the concrete scenario
`sc0 → sc1 → sc2`. -/
theorem conservation_of_value_witness :
    getContractBalance sc1 = escrowSum sc1
  ∧ sc1.charityBalances 1 = sc0.charityBalances 1 + 100
  ∧ sc1.charityBalances 2 = sc0.charityBalances 2
  ∧ sc1.balance = sc0.balance + 100
  ∧ sc2.charityBalances 1 = 0
  ∧ sc2.balance = sc1.balance - sc1.charityBalances 1
  ∧ receiveEther sc1 9 5 = .error .useDonate
  ∧ fallbackEther sc1 9 5 = .error .noSuchFunction := by
  refine ⟨?_, ?_, ?_, ?_, ?_, ?_, ?_, ?_⟩
  · exact conservation_of_value.1 7 [.donate 5 1 100 0]
  · exact (conservation_of_value.2.1 sc0 sc1 5 1 100 0 rfl).1
  · exact (conservation_of_value.2.1 sc0 sc1 5 1 100 0 rfl).2.1 2 (by decide)
  · exact (conservation_of_value.2.1 sc0 sc1 5 1 100 0 rfl).2.2
  · exact (conservation_of_value.2.2.1 sc1 sc2 unicefWallet 1 true rfl).1
  · exact (conservation_of_value.2.2.1 sc1 sc2 unicefWallet 1 true rfl).2.2
  · exact conservation_of_value.2.2.2.1 sc1 9 5
  · exact conservation_of_value.2.2.2.2 sc1 9 5

lemma donate_err_invalidId {s : State} {sender charityId value timestamp : Nat}
    (h : ¬ (0 < charityId ∧ charityId ≤ s.charityCount)) :
    donate s sender charityId value timestamp = .error .invalidCharityId := by
  unfold donate
  rw [if_pos h]

lemma donate_err_inactive {s : State} {sender charityId value timestamp : Nat}
    (hr : 0 < charityId ∧ charityId ≤ s.charityCount)
    (hin : (s.charities charityId).isActive = false) :
    donate s sender charityId value timestamp = .error .charityNotActive := by
  unfold donate
  rw [if_neg (not_not_intro hr), if_pos (by simp [hin])]

lemma donate_err_reentrant {s : State} {sender charityId value timestamp : Nat}
    (hr : 0 < charityId ∧ charityId ≤ s.charityCount)
    (ha : (s.charities charityId).isActive = true)
    (hl : s.locked = true) :
    donate s sender charityId value timestamp = .error .reentrantCall := by
  unfold donate
  rw [if_neg (not_not_intro hr), if_neg (by simp [ha]), if_pos hl]

lemma donate_err_zeroAmount {s : State} {sender charityId timestamp : Nat}
    (hr : 0 < charityId ∧ charityId ≤ s.charityCount)
    (ha : (s.charities charityId).isActive = true)
    (hl : s.locked = false) :
    donate s sender charityId 0 timestamp = .error .invalidAmount := by
  unfold donate
  rw [if_neg (not_not_intro hr), if_neg (by simp [ha]), if_neg (by simp [hl]),
    if_pos (by omega)]

lemma withdrawFunds_err_locked {s : State} {sender charityId : Nat}
    {transferOk : Bool} (hl : s.locked = true) :
    withdrawFunds s sender charityId transferOk = .error .reentrantCall := by
  unfold withdrawFunds
  rw [if_pos hl]

lemma withdrawFunds_err_invalidId {s : State} {sender charityId : Nat}
    {transferOk : Bool} (hl : s.locked = false)
    (h : ¬ (0 < charityId ∧ charityId ≤ s.charityCount)) :
    withdrawFunds s sender charityId transferOk = .error .invalidCharityId := by
  unfold withdrawFunds
  rw [if_neg (by simp [hl]), if_pos h]

lemma withdrawFunds_err_notWallet {s : State} {sender charityId : Nat}
    {transferOk : Bool} (hl : s.locked = false)
    (hr : 0 < charityId ∧ charityId ≤ s.charityCount)
    (hw : sender ≠ (s.charities charityId).walletAddress) :
    withdrawFunds s sender charityId transferOk = .error .onlyCharityWallet := by
  unfold withdrawFunds
  rw [if_neg (by simp [hl]), if_neg (not_not_intro hr), if_pos hw]

lemma withdrawFunds_err_noFunds {s : State} {sender charityId : Nat}
    {transferOk : Bool} (hl : s.locked = false)
    (hr : 0 < charityId ∧ charityId ≤ s.charityCount)
    (hw : sender = (s.charities charityId).walletAddress)
    (hz : s.charityBalances charityId = 0) :
    withdrawFunds s sender charityId transferOk = .error .noFundsToWithdraw := by
  unfold withdrawFunds
  rw [if_neg (by simp [hl]), if_neg (not_not_intro hr), if_neg (not_not_intro hw),
    if_pos (by omega)]

/-- The exact post-state of a successful `withdrawFunds`: the mid-transfer
state (escrow entry zeroed, balance debited, guard held) with the guard
released and the `FundsWithdrawn` event appended. -/
def withdrawPost (s : State) (charityId : Nat) : State :=
  { withdrawMid s charityId with
    locked := false
    eventLog := (withdrawMid s charityId).eventLog ++
      [.FundsWithdrawn charityId (s.charities charityId).walletAddress
        (s.charityBalances charityId)] }

lemma withdrawFunds_succeeds {s : State} {sender charityId : Nat}
    (hl : s.locked = false)
    (hr : 0 < charityId ∧ charityId ≤ s.charityCount)
    (hw : sender = (s.charities charityId).walletAddress)
    (hb : 0 < s.charityBalances charityId) :
    withdrawFunds s sender charityId true = .ok (withdrawPost s charityId) := by
  unfold withdrawFunds
  rw [if_neg (by simp [hl]), if_neg (not_not_intro hr), if_neg (not_not_intro hw),
    if_neg (not_not_intro hb)]
  rfl

lemma withdrawFunds_fails_transfer {s : State} {sender charityId : Nat}
    (hl : s.locked = false)
    (hr : 0 < charityId ∧ charityId ≤ s.charityCount)
    (hw : sender = (s.charities charityId).walletAddress)
    (hb : 0 < s.charityBalances charityId) :
    withdrawFunds s sender charityId false = .error .transferFailed := by
  unfold withdrawFunds
  rw [if_neg (by simp [hl]), if_neg (not_not_intro hr), if_neg (not_not_intro hw),
    if_neg (not_not_intro hb)]
  rfl

lemma applyOp_of_error {s : State} {op : Op} {e : Err}
    (h : (match op with
      | .donate sender charityId value timestamp =>
          donate s sender charityId value timestamp
      | .propose sender name description wallet =>
          proposeCharity s sender name description wallet
      | .approve sender proposalId => approveCharity s sender proposalId
      | .reject sender proposalId => rejectCharity s sender proposalId
      | .withdraw sender charityId transferOk =>
          withdrawFunds s sender charityId transferOk
      | .toggle sender charityId => toggleCharityStatus s sender charityId
      | .plainTransfer sender value => receiveEther s sender value
      | .unknownCall sender value => fallbackEther s sender value) = .error e) :
    applyOp s op = s := by
  cases op <;> simp_all [applyOp, commit]

/-- Concrete scenario: the deployer toggled charity 1 inactive right after
initialization. -/
def sc3 : State := applyOp sc0 (.toggle 7 1)

/-- Concrete scenario: account 5 donated 100 to charity 1 and the deployer
then toggled charity 1 inactive. -/
def sc4 : State := applyOp sc1 (.toggle 7 1)

/-- C4: `donate`, invoked at top level (guard released), checks all
preconditions before any mutation: an id outside the allocated range fails
with `invalidCharityId` (NotFound); an allocated but deactivated charity
fails with `charityNotActive` (Inactive); a zero attached amount fails with
`invalidAmount`; and on each failure the transaction leaves the state
unchanged. -/
theorem donate_preconditions (s : State) (sender charityId value timestamp : Nat)
    (hquiet : s.locked = false) :
    (¬ (0 < charityId ∧ charityId ≤ s.charityCount) →
        donate s sender charityId value timestamp = .error .invalidCharityId
        ∧ applyOp s (.donate sender charityId value timestamp) = s)
  ∧ ((0 < charityId ∧ charityId ≤ s.charityCount) →
      (s.charities charityId).isActive = false →
        donate s sender charityId value timestamp = .error .charityNotActive
        ∧ applyOp s (.donate sender charityId value timestamp) = s)
  ∧ ((0 < charityId ∧ charityId ≤ s.charityCount) →
      (s.charities charityId).isActive = true → value = 0 →
        donate s sender charityId value timestamp = .error .invalidAmount
        ∧ applyOp s (.donate sender charityId value timestamp) = s) := by
  refine ⟨?_, ?_, ?_⟩
  · intro h
    exact ⟨donate_err_invalidId h, applyOp_of_error (donate_err_invalidId h)⟩
  · intro hr hin
    exact ⟨donate_err_inactive hr hin, applyOp_of_error (donate_err_inactive hr hin)⟩
  · intro hr ha hv
    subst hv
    exact ⟨donate_err_zeroAmount hr ha hquiet,
      applyOp_of_error (donate_err_zeroAmount hr ha hquiet)⟩

/-- Closed witness for `donate_preconditions`: donating to never-allocated id
999, to the toggled-inactive charity 1, and with amount 0. -/
theorem donate_preconditions_witness :
    (donate sc0 5 999 10 0 = .error .invalidCharityId
      ∧ applyOp sc0 (.donate 5 999 10 0) = sc0)
  ∧ (donate sc3 5 1 10 1 = .error .charityNotActive
      ∧ applyOp sc3 (.donate 5 1 10 1) = sc3)
  ∧ (donate sc0 5 1 0 0 = .error .invalidAmount
      ∧ applyOp sc0 (.donate 5 1 0 0) = sc0) := by
  refine ⟨?_, ?_, ?_⟩
  · exact (donate_preconditions sc0 5 999 10 0 rfl).1 (by decide)
  · exact (donate_preconditions sc3 5 1 10 1 rfl).2.1 (by decide) rfl
  · exact (donate_preconditions sc0 5 1 0 0 rfl).2.2 (by decide) rfl rfl

/-- C3: `withdrawFunds`, invoked at top level, fails with `invalidCharityId`
(NotFound) outside the allocated range, with `onlyCharityWallet`
(Unauthorized) when the caller is not the registered wallet, and with
`noFundsToWithdraw` when the escrow balance is zero.  On the success path
the escrow entry is zeroed before the external transfer — the mid-transfer
state `withdrawMid` already has the entry at zero and the read balance
debited — and the final state is exactly that state with the guard released.
If the external transfer fails the call reverts with `transferFailed` and
the transaction leaves the state unchanged (the balance is restored). -/
theorem withdraw_error_handling (s : State) (sender charityId : Nat)
    (transferOk : Bool) (hquiet : s.locked = false) :
    (¬ (0 < charityId ∧ charityId ≤ s.charityCount) →
        withdrawFunds s sender charityId transferOk = .error .invalidCharityId)
  ∧ ((0 < charityId ∧ charityId ≤ s.charityCount) →
      sender ≠ (s.charities charityId).walletAddress →
        withdrawFunds s sender charityId transferOk = .error .onlyCharityWallet)
  ∧ ((0 < charityId ∧ charityId ≤ s.charityCount) →
      sender = (s.charities charityId).walletAddress →
      s.charityBalances charityId = 0 →
        withdrawFunds s sender charityId transferOk = .error .noFundsToWithdraw)
  ∧ ((0 < charityId ∧ charityId ≤ s.charityCount) →
      sender = (s.charities charityId).walletAddress →
      0 < s.charityBalances charityId →
        (withdrawMid s charityId).charityBalances charityId = 0
        ∧ (withdrawMid s charityId).balance = s.balance - s.charityBalances charityId
        ∧ withdrawFunds s sender charityId true = .ok (withdrawPost s charityId)
        ∧ (withdrawPost s charityId).charityBalances charityId = 0
        ∧ (withdrawPost s charityId).balance = s.balance - s.charityBalances charityId
        ∧ withdrawFunds s sender charityId false = .error .transferFailed
        ∧ applyOp s (.withdraw sender charityId false) = s) := by
  refine ⟨?_, ?_, ?_, ?_⟩
  · intro h
    exact withdrawFunds_err_invalidId hquiet h
  · intro hr hw
    exact withdrawFunds_err_notWallet hquiet hr hw
  · intro hr hw hz
    exact withdrawFunds_err_noFunds hquiet hr hw hz
  · intro hr hw hb
    refine ⟨by simp [withdrawMid], rfl, withdrawFunds_succeeds hquiet hr hw hb,
      by simp [withdrawPost, withdrawMid], rfl,
      withdrawFunds_fails_transfer hquiet hr hw hb,
      applyOp_of_error (withdrawFunds_fails_transfer hquiet hr hw hb)⟩

/-- Closed witness for `withdraw_error_handling` on the concrete scenario:
wrong id, wrong caller, drained escrow, the checks-effects ordering of the
successful withdrawal from `sc1`, and the rollback of a failed transfer. -/
theorem withdraw_error_handling_witness :
    withdrawFunds sc1 unicefWallet 999 true = .error .invalidCharityId
  ∧ withdrawFunds sc1 5 1 true = .error .onlyCharityWallet
  ∧ withdrawFunds sc2 unicefWallet 1 true = .error .noFundsToWithdraw
  ∧ (withdrawMid sc1 1).charityBalances 1 = 0
  ∧ (withdrawMid sc1 1).balance = sc1.balance - sc1.charityBalances 1
  ∧ withdrawFunds sc1 unicefWallet 1 true = .ok (withdrawPost sc1 1)
  ∧ withdrawFunds sc1 unicefWallet 1 false = .error .transferFailed
  ∧ applyOp sc1 (.withdraw unicefWallet 1 false) = sc1 := by
  refine ⟨?_, ?_, ?_, ?_, ?_, ?_, ?_, ?_⟩
  · exact (withdraw_error_handling sc1 unicefWallet 999 true rfl).1 (by decide)
  · exact (withdraw_error_handling sc1 5 1 true rfl).2.1 (by decide) (by decide)
  · exact (withdraw_error_handling sc2 unicefWallet 1 true rfl).2.2.1 (by decide) rfl rfl
  · exact ((withdraw_error_handling sc1 unicefWallet 1 true rfl).2.2.2 (by decide) rfl
      (by decide)).1
  · exact ((withdraw_error_handling sc1 unicefWallet 1 true rfl).2.2.2 (by decide) rfl
      (by decide)).2.1
  · exact ((withdraw_error_handling sc1 unicefWallet 1 true rfl).2.2.2 (by decide) rfl
      (by decide)).2.2.1
  · exact ((withdraw_error_handling sc1 unicefWallet 1 false rfl).2.2.2 (by decide) rfl
      (by decide)).2.2.2.2.2.1
  · exact ((withdraw_error_handling sc1 unicefWallet 1 false rfl).2.2.2 (by decide) rfl
      (by decide)).2.2.2.2.2.2

/-- The exact post-state of a successful `toggleCharityStatus`. -/
def togglePost (s : State) (charityId : Nat) : State :=
  let c := s.charities charityId
  { s with
    charities := fun j =>
      if j = charityId then { c with isActive := !c.isActive } else s.charities j
    eventLog := s.eventLog ++ [.CharityStatusChanged charityId (!c.isActive)] }

lemma toggle_err_notAdmin {s : State} {sender charityId : Nat}
    (h : isAdmin s sender = false) :
    toggleCharityStatus s sender charityId = .error .notAdmin := by
  unfold toggleCharityStatus
  rw [if_pos (by simp [h])]

lemma toggle_err_invalidId {s : State} {sender charityId : Nat}
    (ha : isAdmin s sender = true) (h : ¬ (0 < charityId ∧ charityId ≤ s.charityCount)) :
    toggleCharityStatus s sender charityId = .error .invalidCharityId := by
  unfold toggleCharityStatus
  rw [if_neg (by simp [ha]), if_pos h]

lemma toggle_succeeds {s : State} {sender charityId : Nat}
    (ha : isAdmin s sender = true) (hr : 0 < charityId ∧ charityId ≤ s.charityCount) :
    toggleCharityStatus s sender charityId = .ok (togglePost s charityId) := by
  unfold toggleCharityStatus
  rw [if_neg (by simp [ha]), if_neg (not_not_intro hr)]
  rfl

/-- C7: `toggleCharityStatus` is admin-only (else `notAdmin`, Unauthorized),
fails with `invalidCharityId` (NotFound) outside the allocated range (in both
failure cases the transaction leaves the state unchanged); on success it
flips exactly the target charity's `isActive` flag, emits
`CharityStatusChanged`, and leaves the charity's other fields, every other
charity, the escrow balances, lifetime totals and all remaining state
unchanged. -/
theorem toggle_status_frame (s : State) (sender charityId : Nat) :
    (isAdmin s sender = false →
        toggleCharityStatus s sender charityId = .error .notAdmin
        ∧ applyOp s (.toggle sender charityId) = s)
  ∧ (isAdmin s sender = true → ¬ (0 < charityId ∧ charityId ≤ s.charityCount) →
        toggleCharityStatus s sender charityId = .error .invalidCharityId
        ∧ applyOp s (.toggle sender charityId) = s)
  ∧ (isAdmin s sender = true → (0 < charityId ∧ charityId ≤ s.charityCount) →
        toggleCharityStatus s sender charityId = .ok (togglePost s charityId)
        ∧ (togglePost s charityId).charities charityId =
            { s.charities charityId with isActive := !(s.charities charityId).isActive }
        ∧ (∀ j, j ≠ charityId →
            (togglePost s charityId).charities j = s.charities j)
        ∧ (togglePost s charityId).charityBalances = s.charityBalances
        ∧ (togglePost s charityId).charityCount = s.charityCount
        ∧ (togglePost s charityId).proposalCount = s.proposalCount
        ∧ (togglePost s charityId).totalDonations = s.totalDonations
        ∧ (togglePost s charityId).proposals = s.proposals
        ∧ (togglePost s charityId).donorTotalDonations = s.donorTotalDonations
        ∧ (togglePost s charityId).isDonor = s.isDonor
        ∧ (togglePost s charityId).donationHistory = s.donationHistory
        ∧ (togglePost s charityId).donorAddresses = s.donorAddresses
        ∧ (togglePost s charityId).balance = s.balance
        ∧ (togglePost s charityId).locked = s.locked
        ∧ (togglePost s charityId).eventLog = s.eventLog ++
            [.CharityStatusChanged charityId (!(s.charities charityId).isActive)]) := by
  refine ⟨?_, ?_, ?_⟩
  · intro h
    exact ⟨toggle_err_notAdmin h, applyOp_of_error (toggle_err_notAdmin h)⟩
  · intro ha h
    exact ⟨toggle_err_invalidId ha h, applyOp_of_error (toggle_err_invalidId ha h)⟩
  · intro ha hr
    refine ⟨toggle_succeeds ha hr, by simp [togglePost], ?_, rfl, rfl, rfl, rfl, rfl,
      rfl, rfl, rfl, rfl, rfl, rfl, rfl⟩
    intro j hj
    simp [togglePost, if_neg hj]

/-- Closed witness for `toggle_status_frame`: a non-admin caller, an invalid
id, and the frame facts of the deployer toggling charity 1 in `sc0`. -/
theorem toggle_status_frame_witness :
    (toggleCharityStatus sc0 9 1 = .error .notAdmin
      ∧ applyOp sc0 (.toggle 9 1) = sc0)
  ∧ (toggleCharityStatus sc0 7 999 = .error .invalidCharityId
      ∧ applyOp sc0 (.toggle 7 999) = sc0)
  ∧ toggleCharityStatus sc0 7 1 = .ok (togglePost sc0 1)
  ∧ (togglePost sc0 1).charities 1 =
      { sc0.charities 1 with isActive := !(sc0.charities 1).isActive }
  ∧ (togglePost sc0 1).charityBalances = sc0.charityBalances
  ∧ (togglePost sc0 1).totalDonations = sc0.totalDonations
  ∧ (togglePost sc0 1).balance = sc0.balance := by
  refine ⟨(toggle_status_frame sc0 9 1).1 rfl,
    (toggle_status_frame sc0 7 999).2.1 rfl (by decide), ?_, ?_, ?_, ?_, ?_⟩
  · exact ((toggle_status_frame sc0 7 1).2.2 rfl (by decide)).1
  · exact ((toggle_status_frame sc0 7 1).2.2 rfl (by decide)).2.1
  · exact ((toggle_status_frame sc0 7 1).2.2 rfl (by decide)).2.2.2.1
  · exact ((toggle_status_frame sc0 7 1).2.2 rfl (by decide)).2.2.2.2.2.2.1
  · exact ((toggle_status_frame sc0 7 1).2.2 rfl (by decide)).2.2.2.2.2.2.2.2.2.2.2.2.1

/-- The exact post-state of a successful `approveCharity`: the proposal is
marked processed and approved, and `_addCharity` appends the new charity. -/
def approvePost (s : State) (proposalId : Nat) : State :=
  let p := s.proposals proposalId
  let s1 : State :=
    { s with proposals := fun j =>
        if j = proposalId then { p with isProcessed := true, isApproved := true }
        else s.proposals j }
  let s2 := addCharity s1 p.name p.description p.walletAddress
  { s2 with eventLog := s2.eventLog ++
      [.CharityApproved s2.charityCount p.name p.walletAddress] }

/-- The exact post-state of a successful `rejectCharity`. -/
def rejectPost (s : State) (proposalId : Nat) : State :=
  let p := s.proposals proposalId
  { s with
    proposals := fun j =>
      if j = proposalId then { p with isProcessed := true, isApproved := false }
      else s.proposals j
    eventLog := s.eventLog ++ [.CharityRejected proposalId p.name] }

lemma approveCharity_succeeds {s : State} {sender proposalId : Nat}
    (ha : isAdmin s sender = true)
    (hr : 0 < proposalId ∧ proposalId ≤ s.proposalCount)
    (hp : (s.proposals proposalId).isProcessed = false) :
    approveCharity s sender proposalId = .ok (approvePost s proposalId) := by
  unfold approveCharity
  rw [if_neg (by simp [ha]), if_neg (not_not_intro hr), if_neg (by simp [hp])]
  rfl

lemma rejectCharity_succeeds {s : State} {sender proposalId : Nat}
    (ha : isAdmin s sender = true)
    (hr : 0 < proposalId ∧ proposalId ≤ s.proposalCount)
    (hp : (s.proposals proposalId).isProcessed = false) :
    rejectCharity s sender proposalId = .ok (rejectPost s proposalId) := by
  unfold rejectCharity
  rw [if_neg (by simp [ha]), if_neg (not_not_intro hr), if_neg (by simp [hp])]
  rfl

lemma approveCharity_err_processed {s : State} {sender proposalId : Nat}
    (ha : isAdmin s sender = true)
    (hr : 0 < proposalId ∧ proposalId ≤ s.proposalCount)
    (hp : (s.proposals proposalId).isProcessed = true) :
    approveCharity s sender proposalId = .error .alreadyProcessed := by
  unfold approveCharity
  rw [if_neg (by simp [ha]), if_neg (not_not_intro hr), if_pos hp]

lemma rejectCharity_err_processed {s : State} {sender proposalId : Nat}
    (ha : isAdmin s sender = true)
    (hr : 0 < proposalId ∧ proposalId ≤ s.proposalCount)
    (hp : (s.proposals proposalId).isProcessed = true) :
    rejectCharity s sender proposalId = .error .alreadyProcessed := by
  unfold rejectCharity
  rw [if_neg (by simp [ha]), if_neg (not_not_intro hr), if_pos hp]

/-- C5: exactly-once proposal processing.  For an allocated, unprocessed
proposal, an admin's first `approveCharity` or `rejectCharity` succeeds;
afterwards any second `approveCharity` or `rejectCharity` on the same id by
any admin fails with `alreadyProcessed`.  Approval increases the charity
count by exactly one and copies the proposal's fields into the new charity
with zero lifetime-received and `isActive = true`; rejection leaves the
charity count unchanged. -/
theorem proposal_exactly_once (s : State) (sender proposalId : Nat)
    (ha : isAdmin s sender = true)
    (hr : 0 < proposalId ∧ proposalId ≤ s.proposalCount)
    (hp : (s.proposals proposalId).isProcessed = false) :
    (approveCharity s sender proposalId = .ok (approvePost s proposalId)
      ∧ (approvePost s proposalId).charityCount = s.charityCount + 1
      ∧ (approvePost s proposalId).charities (s.charityCount + 1) =
          { id := s.charityCount + 1, name := (s.proposals proposalId).name,
            description := (s.proposals proposalId).description,
            walletAddress := (s.proposals proposalId).walletAddress,
            totalReceived := 0, isActive := true }
      ∧ (∀ sender2, isAdmin s sender2 = true →
          approveCharity (approvePost s proposalId) sender2 proposalId
            = .error .alreadyProcessed
          ∧ rejectCharity (approvePost s proposalId) sender2 proposalId
            = .error .alreadyProcessed))
  ∧ (rejectCharity s sender proposalId = .ok (rejectPost s proposalId)
      ∧ (rejectPost s proposalId).charityCount = s.charityCount
      ∧ (∀ sender2, isAdmin s sender2 = true →
          approveCharity (rejectPost s proposalId) sender2 proposalId
            = .error .alreadyProcessed
          ∧ rejectCharity (rejectPost s proposalId) sender2 proposalId
            = .error .alreadyProcessed)) := by
  constructor
  · refine ⟨approveCharity_succeeds ha hr hp, rfl, by simp [approvePost, addCharity], ?_⟩
    intro sender2 ha2
    have ha2' : isAdmin (approvePost s proposalId) sender2 = true := ha2
    have hr2 : 0 < proposalId ∧ proposalId ≤ (approvePost s proposalId).proposalCount := hr
    have hp2 : ((approvePost s proposalId).proposals proposalId).isProcessed = true := by
      simp [approvePost, addCharity]
    exact ⟨approveCharity_err_processed ha2' hr2 hp2,
      rejectCharity_err_processed ha2' hr2 hp2⟩
  · refine ⟨rejectCharity_succeeds ha hr hp, rfl, ?_⟩
    intro sender2 ha2
    have ha2' : isAdmin (rejectPost s proposalId) sender2 = true := ha2
    have hr2 : 0 < proposalId ∧ proposalId ≤ (rejectPost s proposalId).proposalCount := hr
    have hp2 : ((rejectPost s proposalId).proposals proposalId).isProcessed = true := by
      simp [rejectPost]
    exact ⟨approveCharity_err_processed ha2' hr2 hp2,
      rejectCharity_err_processed ha2' hr2 hp2⟩

/-- Concrete scenario: account 9 proposed charity "Foo" with wallet 42. -/
def sc5 : State := applyOp sc0 (.propose 9 "Foo" "desc" 42)

/-- Closed witness for `proposal_exactly_once` on proposal 1 of `sc5`,
processed by the deployer. -/
theorem proposal_exactly_once_witness :
    approveCharity sc5 7 1 = .ok (approvePost sc5 1)
  ∧ (approvePost sc5 1).charityCount = sc5.charityCount + 1
  ∧ approveCharity (approvePost sc5 1) 7 1 = .error .alreadyProcessed
  ∧ rejectCharity (approvePost sc5 1) 7 1 = .error .alreadyProcessed
  ∧ rejectCharity sc5 7 1 = .ok (rejectPost sc5 1)
  ∧ (rejectPost sc5 1).charityCount = sc5.charityCount
  ∧ approveCharity (rejectPost sc5 1) 7 1 = .error .alreadyProcessed
  ∧ rejectCharity (rejectPost sc5 1) 7 1 = .error .alreadyProcessed := by
  refine ⟨?_, ?_, ?_, ?_, ?_, ?_, ?_, ?_⟩
  · exact (proposal_exactly_once sc5 7 1 (by decide) (by decide) rfl).1.1
  · exact (proposal_exactly_once sc5 7 1 (by decide) (by decide) rfl).1.2.1
  · exact ((proposal_exactly_once sc5 7 1 (by decide) (by decide) rfl).1.2.2.2 7
      (by decide)).1
  · exact ((proposal_exactly_once sc5 7 1 (by decide) (by decide) rfl).1.2.2.2 7
      (by decide)).2
  · exact (proposal_exactly_once sc5 7 1 (by decide) (by decide) rfl).2.1
  · exact (proposal_exactly_once sc5 7 1 (by decide) (by decide) rfl).2.2.1
  · exact ((proposal_exactly_once sc5 7 1 (by decide) (by decide) rfl).2.2.2 7
      (by decide)).1
  · exact ((proposal_exactly_once sc5 7 1 (by decide) (by decide) rfl).2.2.2 7
      (by decide)).2

/-- C10: withdrawal does not require the charity to be active.  The
hypothesis `hin` records that the charity is deactivated; the success
derivation never consults it — `withdrawFunds` checks only id range, caller
identity and a positive escrow balance, so deactivation never strands
already-escrowed funds. -/
theorem withdraw_ignores_inactive (s : State) (sender charityId : Nat)
    (hquiet : s.locked = false)
    (hr : 0 < charityId ∧ charityId ≤ s.charityCount)
    (hw : sender = (s.charities charityId).walletAddress)
    (hb : 0 < s.charityBalances charityId)
    (_hin : (s.charities charityId).isActive = false) :
    withdrawFunds s sender charityId true = .ok (withdrawPost s charityId)
    ∧ (withdrawPost s charityId).charityBalances charityId = 0
    ∧ (withdrawPost s charityId).balance = s.balance - s.charityBalances charityId :=
  ⟨withdrawFunds_succeeds hquiet hr hw hb, by simp [withdrawPost, withdrawMid], rfl⟩

/-- Closed witness for `withdraw_ignores_inactive`: in `sc4` charity 1 holds
escrow 100 and has been toggled inactive, yet its wallet's withdrawal
succeeds and drains the escrow. -/
theorem withdraw_ignores_inactive_witness :
    withdrawFunds sc4 unicefWallet 1 true = .ok (withdrawPost sc4 1)
    ∧ (withdrawPost sc4 1).charityBalances 1 = 0
    ∧ (withdrawPost sc4 1).balance = sc4.balance - sc4.charityBalances 1 :=
  withdraw_ignores_inactive sc4 unicefWallet 1 rfl (by decide) rfl (by decide) rfl

/-- C6 counterexample: the claim "any nested invocation of donate or
withdraw fails with ReentrantCall" is false as stated.  During the genuine
mid-transfer state of a successful withdrawal from `sc1` (guard held), a
nested `donate` to the never-allocated id 999 fails with
`invalidCharityId`, not `reentrantCall`: `donate`'s `validCharity` modifier
runs before its `nonReentrant` modifier. -/
theorem reentrancy_claim_counterexample :
    withdrawFunds sc1 unicefWallet 1 true = .ok (withdrawPost sc1 1)
  ∧ (withdrawMid sc1 1).locked = true
  ∧ donate (withdrawMid sc1 1) 5 999 10 1 = .error .invalidCharityId
  ∧ Err.invalidCharityId ≠ Err.reentrantCall :=
  ⟨rfl, rfl, rfl, by decide⟩

/-- C6 (amended): while a withdrawal is in its external-transfer step
(`withdrawMid`, guard held), every nested `withdrawFunds` fails with
`reentrantCall`, and a nested `donate` fails with `reentrantCall` whenever
its target id is allocated and active (its charity-validation modifier runs
first, so an invalid or inactive target yields that validation error
instead); in every case the nested call fails and mutates nothing, and the
outer withdrawal still completes its accounting: the escrow entry is zeroed,
the read balance is debited, and the guard is released on exit. -/
theorem reentrancy_guard (s : State) (sender charityId : Nat)
    (hquiet : s.locked = false)
    (hr : 0 < charityId ∧ charityId ≤ s.charityCount)
    (hw : sender = (s.charities charityId).walletAddress)
    (hb : 0 < s.charityBalances charityId) :
    (withdrawMid s charityId).locked = true
  ∧ (∀ a c ok, withdrawFunds (withdrawMid s charityId) a c ok = .error .reentrantCall
      ∧ applyOp (withdrawMid s charityId) (.withdraw a c ok) = withdrawMid s charityId)
  ∧ (∀ a c v t, (0 < c ∧ c ≤ (withdrawMid s charityId).charityCount) →
      ((withdrawMid s charityId).charities c).isActive = true →
        donate (withdrawMid s charityId) a c v t = .error .reentrantCall)
  ∧ (∀ a c v t, ∃ e, donate (withdrawMid s charityId) a c v t = .error e
      ∧ applyOp (withdrawMid s charityId) (.donate a c v t) = withdrawMid s charityId)
  ∧ withdrawFunds s sender charityId true = .ok (withdrawPost s charityId)
  ∧ (withdrawPost s charityId).locked = false
  ∧ (withdrawPost s charityId).charityBalances charityId = 0
  ∧ (withdrawPost s charityId).balance = s.balance - s.charityBalances charityId := by
  refine ⟨rfl, ?_, ?_, ?_, withdrawFunds_succeeds hquiet hr hw hb, rfl,
    by simp [withdrawPost, withdrawMid], rfl⟩
  · intro a c ok
    exact ⟨withdrawFunds_err_locked rfl, applyOp_of_error (withdrawFunds_err_locked rfl)⟩
  · intro a c v t hcr hca
    exact donate_err_reentrant hcr hca rfl
  · intro a c v t
    by_cases hcr : 0 < c ∧ c ≤ (withdrawMid s charityId).charityCount
    · by_cases hca : ((withdrawMid s charityId).charities c).isActive = true
      · exact ⟨.reentrantCall, donate_err_reentrant hcr hca rfl,
          applyOp_of_error (donate_err_reentrant hcr hca rfl)⟩
      · have hca2 : ((withdrawMid s charityId).charities c).isActive = false := by
          cases hx : ((withdrawMid s charityId).charities c).isActive
          · rfl
          · exact absurd hx hca
        exact ⟨.charityNotActive, donate_err_inactive hcr hca2,
          applyOp_of_error (donate_err_inactive hcr hca2)⟩
    · exact ⟨.invalidCharityId, donate_err_invalidId hcr,
        applyOp_of_error (donate_err_invalidId hcr)⟩

/-- Closed witness for `reentrancy_guard` on the withdrawal of charity 1's
escrow from `sc1`, with nested calls attempted by the payout address. -/
theorem reentrancy_guard_witness :
    (withdrawMid sc1 1).locked = true
  ∧ withdrawFunds (withdrawMid sc1 1) unicefWallet 1 true = .error .reentrantCall
  ∧ applyOp (withdrawMid sc1 1) (.withdraw unicefWallet 1 true) = withdrawMid sc1 1
  ∧ donate (withdrawMid sc1 1) 5 1 10 1 = .error .reentrantCall
  ∧ withdrawFunds sc1 unicefWallet 1 true = .ok (withdrawPost sc1 1)
  ∧ (withdrawPost sc1 1).locked = false
  ∧ (withdrawPost sc1 1).charityBalances 1 = 0 := by
  refine ⟨(reentrancy_guard sc1 unicefWallet 1 rfl (by decide) rfl (by decide)).1,
    ?_, ?_, ?_, ?_, ?_, ?_⟩
  · exact ((reentrancy_guard sc1 unicefWallet 1 rfl (by decide) rfl (by decide)).2.1
      unicefWallet 1 true).1
  · exact ((reentrancy_guard sc1 unicefWallet 1 rfl (by decide) rfl (by decide)).2.1
      unicefWallet 1 true).2
  · exact (reentrancy_guard sc1 unicefWallet 1 rfl (by decide) rfl (by decide)).2.2.1
      5 1 10 1 (by decide) (by decide)
  · exact (reentrancy_guard sc1 unicefWallet 1 rfl (by decide) rfl (by decide)).2.2.2.2.1
  · exact (reentrancy_guard sc1 unicefWallet 1 rfl (by decide) rfl
      (by decide)).2.2.2.2.2.1
  · exact (reentrancy_guard sc1 unicefWallet 1 rfl (by decide) rfl
      (by decide)).2.2.2.2.2.2.1

/-- Donor-index invariant: `donorAddresses` has no duplicates, mirrors the
`isDonor` flag, and the flag marks exactly the addresses that appear as a
donor in the ledger history. -/
def DonorIndexOK (s : State) : Prop :=
  s.donorAddresses.Nodup
  ∧ (∀ a, a ∈ s.donorAddresses ↔ s.isDonor a = true)
  ∧ (∀ a, s.isDonor a = true ↔ a ∈ s.donationHistory.map Donation.donor)

lemma donorIndexOK_initial (deployer : Address) :
    DonorIndexOK (initialState deployer) := by
  refine ⟨List.nodup_nil, ?_, ?_⟩
  · intro a
    simp [initialState, addCharity]
  · intro a
    simp [initialState, addCharity]

lemma donorIndexOK_of_eq {s s' : State} (h : DonorIndexOK s)
    (h1 : s'.donorAddresses = s.donorAddresses) (h2 : s'.isDonor = s.isDonor)
    (h3 : s'.donationHistory = s.donationHistory) : DonorIndexOK s' := by
  refine ⟨?_, ?_, ?_⟩
  · rw [h1]; exact h.1
  · intro a
    rw [h1, h2]
    exact h.2.1 a
  · intro a
    rw [h2, h3]
    exact h.2.2 a

lemma donorIndexOK_commit {s : State} (r : Except Err State) (h : DonorIndexOK s)
    (hok : ∀ s', r = .ok s' → DonorIndexOK s') : DonorIndexOK (commit s r) := by
  cases r with
  | ok s1 => exact hok s1 rfl
  | error e => exact h

lemma donorIndexOK_donate_ok {s s' : State} {sender charityId value timestamp : Nat}
    (h : DonorIndexOK s)
    (hok : donate s sender charityId value timestamp = .ok s') :
    DonorIndexOK s' := by
  obtain ⟨-, -, -, -, -, -, -, -, -, -, -, hisD, haddr, -, hhist, -, -, -⟩ :=
    donate_ok_inv hok
  obtain ⟨hnd, hmem, hflag⟩ := h
  refine ⟨?_, ?_, ?_⟩
  · rw [haddr]
    by_cases hd : s.isDonor sender = true
    · rw [if_pos hd]
      exact hnd
    · rw [if_neg hd]
      rw [List.nodup_append]
      refine ⟨hnd, List.nodup_singleton sender, ?_⟩
      rw [List.disjoint_singleton]
      intro hin
      exact hd ((hmem sender).mp hin)
  · intro a
    rw [haddr, hisD]
    by_cases hase : a = sender
    · subst hase
      by_cases hd : s.isDonor a = true
      · rw [if_pos hd]
        simp [hmem a, hd]
      · rw [if_neg hd]
        simp
    · by_cases hd : s.isDonor sender = true
      · rw [if_pos hd]
        simp only [if_neg hase]
        exact hmem a
      · rw [if_neg hd]
        simp only [List.mem_append, List.mem_singleton, if_neg hase, hase,
          or_false]
        exact hmem a
  · intro a
    rw [hisD, hhist]
    by_cases hase : a = sender
    · subst hase
      simp
    · simp only [if_neg hase, List.map_append, List.mem_append]
      rw [hflag a]
      simp [hase]

lemma donorIndexOK_applyOp (s : State) (op : Op) (h : DonorIndexOK s) :
    DonorIndexOK (applyOp s op) := by
  cases op with
  | donate sender charityId value timestamp =>
      refine donorIndexOK_commit (donate s sender charityId value timestamp) h ?_
      intro s' hok
      exact donorIndexOK_donate_ok h hok
  | propose sender name description wallet =>
      refine donorIndexOK_commit (proposeCharity s sender name description wallet) h ?_
      intro s' hok
      obtain ⟨-, -, -, -, -, -, -, -, hisD, haddr, hhist⟩ := proposeCharity_ok_inv hok
      exact donorIndexOK_of_eq h haddr hisD hhist
  | approve sender proposalId =>
      refine donorIndexOK_commit (approveCharity s sender proposalId) h ?_
      intro s' hok
      obtain ⟨-, -, -, -, -, -, -, -, -, -, -, hisD, haddr, -, hhist, -, -⟩ :=
        approveCharity_ok_inv hok
      exact donorIndexOK_of_eq h haddr hisD hhist
  | reject sender proposalId =>
      refine donorIndexOK_commit (rejectCharity s sender proposalId) h ?_
      intro s' hok
      obtain ⟨-, -, -, -, -, -, -, -, -, -, -, hisD, haddr, -, hhist, -, -⟩ :=
        rejectCharity_ok_inv hok
      exact donorIndexOK_of_eq h haddr hisD hhist
  | withdraw sender charityId transferOk =>
      refine donorIndexOK_commit (withdrawFunds s sender charityId transferOk) h ?_
      intro s' hok
      obtain ⟨-, -, -, -, -, -, -, -, -, -, -, -, -, hisD, haddr, -, hhist, -, -, -⟩ :=
        withdrawFunds_ok_inv hok
      exact donorIndexOK_of_eq h haddr hisD hhist
  | toggle sender charityId =>
      refine donorIndexOK_commit (toggleCharityStatus s sender charityId) h ?_
      intro s' hok
      obtain ⟨-, -, -, -, -, -, -, -, -, -, hisD, haddr, -, hhist, -, -, -⟩ :=
        toggleCharityStatus_ok_inv hok
      exact donorIndexOK_of_eq h haddr hisD hhist
  | plainTransfer sender value =>
      exact donorIndexOK_commit (receiveEther s sender value) h
        fun s' hok => Except.noConfusion hok
  | unknownCall sender value =>
      exact donorIndexOK_commit (fallbackEther s sender value) h
        fun s' hok => Except.noConfusion hok

lemma donorIndexOK_execOps (s : State) (ops : List Op) (h : DonorIndexOK s) :
    DonorIndexOK (execOps s ops) := by
  induction ops generalizing s with
  | nil => exact h
  | cons op rest ih => exact ih (applyOp s op) (donorIndexOK_applyOp s op h)

/-- C8: contributor-index uniqueness.  After every sequence of transactions
from the initialized state, each address appears at most once in
`donorAddresses` (the list is duplicate-free), and an address is in the
index exactly when it appears as a donor in the ledger history.  Moreover a
successful `donate` leaves the index unchanged when the sender was already a
donor and appends the sender exactly when it was not (its first successful
donation). -/
theorem contributor_index_unique :
    (∀ deployer ops,
        (execOps (initialState deployer) ops).donorAddresses.Nodup
        ∧ (∀ a, a ∈ (execOps (initialState deployer) ops).donorAddresses
            ↔ a ∈ ((execOps (initialState deployer) ops).donationHistory.map
                Donation.donor)))
  ∧ (∀ s s' sender charityId value timestamp,
        donate s sender charityId value timestamp = .ok s' →
          (s.isDonor sender = true → s'.donorAddresses = s.donorAddresses)
          ∧ (s.isDonor sender = false →
              s'.donorAddresses = s.donorAddresses ++ [sender])
          ∧ s'.isDonor sender = true) := by
  constructor
  · intro deployer ops
    have h := donorIndexOK_execOps (initialState deployer) ops
      (donorIndexOK_initial deployer)
    exact ⟨h.1, fun a => (h.2.1 a).trans (h.2.2 a)⟩
  · intro s s' sender charityId value timestamp hok
    obtain ⟨-, -, -, -, -, -, -, -, -, -, -, hisD, haddr, -, -, -, -, -⟩ :=
      donate_ok_inv hok
    refine ⟨?_, ?_, ?_⟩
    · intro hd
      rw [haddr, if_pos hd]
    · intro hd
      rw [haddr, if_neg (by simp [hd])]
    · rw [hisD]
      simp

/-- Concrete scenario: account 5 donated a second time (50 more to
charity 1). -/
def sc6 : State := applyOp sc1 (.donate 5 1 50 1)

/-- Closed witness for `contributor_index_unique`: account 5's first
donation inserts it into the index, its second donation does not. -/
theorem contributor_index_unique_witness :
    sc1.donorAddresses.Nodup
  ∧ sc1.donorAddresses = sc0.donorAddresses ++ [5]
  ∧ sc6.donorAddresses = sc1.donorAddresses
  ∧ sc6.isDonor 5 = true := by
  refine ⟨(contributor_index_unique.1 7 [.donate 5 1 100 0]).1, ?_, ?_, ?_⟩
  · exact (contributor_index_unique.2 sc0 sc1 5 1 100 0 rfl).2.1 rfl
  · exact (contributor_index_unique.2 sc1 sc6 5 1 50 1 rfl).1 rfl
  · exact (contributor_index_unique.2 sc1 sc6 5 1 50 1 rfl).2.2

lemma getRecentDonations_eq (s : State) (limit : Nat) :
    getRecentDonations s limit = s.donationHistory.reverse.take limit := by
  apply List.ext_getElem
  · simp only [getRecentDonations, List.length_map, List.length_range,
      List.length_take, List.length_reverse]
    split <;> omega
  · intro i h1 h2
    have hcount : i < (if limit < s.donationHistory.length then limit
        else s.donationHistory.length) := by
      simpa [getRecentDonations] using h1
    have hin : i < s.donationHistory.length := by
      split at hcount <;> omega
    have hi : s.donationHistory.length - 1 - i < s.donationHistory.length := by
      omega
    simp only [getRecentDonations, List.getElem_map, List.getElem_range,
      List.getElem_take, List.getElem_reverse]
    rw [List.getD_eq_getElem _ _ hi]

/-- C9: `getRecentDonations(limit)` returns the last `limit` ledger entries
most-recent-first — it equals `donationHistory.reverse.take limit`; its
length is `min limit n` for a log of length `n`; when `limit` exceeds `n` it
is the whole log reversed; and its `i`-th element is the `(n-1-i)`-th
appended entry. -/
theorem recent_activity_spec (s : State) (limit : Nat) :
    getRecentDonations s limit = s.donationHistory.reverse.take limit
  ∧ (getRecentDonations s limit).length = min limit s.donationHistory.length
  ∧ (s.donationHistory.length ≤ limit →
      getRecentDonations s limit = s.donationHistory.reverse)
  ∧ (∀ i, i < min limit s.donationHistory.length →
      (getRecentDonations s limit).getD i emptyDonation
        = s.donationHistory.getD (s.donationHistory.length - 1 - i) emptyDonation) := by
  refine ⟨getRecentDonations_eq s limit, ?_, ?_, ?_⟩
  · rw [getRecentDonations_eq]
    simp [List.length_take]
  · intro hle
    rw [getRecentDonations_eq]
    exact List.take_of_length_le (by simpa using hle)
  · intro i hi
    rw [getRecentDonations_eq]
    have h1 : i < (s.donationHistory.reverse.take limit).length := by
      simp only [List.length_take, List.length_reverse]
      omega
    have hn : s.donationHistory.length - 1 - i < s.donationHistory.length := by
      omega
    rw [List.getD_eq_getElem _ _ h1, List.getD_eq_getElem _ _ hn]
    simp only [List.getElem_take, List.getElem_reverse]

/-- Closed witness for `recent_activity_spec` on the two-entry history of
`sc6`. -/
theorem recent_activity_spec_witness :
    getRecentDonations sc6 1 = sc6.donationHistory.reverse.take 1
  ∧ (getRecentDonations sc6 1).length = min 1 sc6.donationHistory.length
  ∧ getRecentDonations sc6 5 = sc6.donationHistory.reverse
  ∧ (getRecentDonations sc6 2).getD 1 emptyDonation
      = sc6.donationHistory.getD (sc6.donationHistory.length - 1 - 1) emptyDonation := by
  refine ⟨(recent_activity_spec sc6 1).1, (recent_activity_spec sc6 1).2.1, ?_, ?_⟩
  · exact (recent_activity_spec sc6 5).2.2.1 (by decide)
  · exact (recent_activity_spec sc6 2).2.2.2 1 (by decide)

/-- Modelled from the spec (part of `getDonorLeaderboard`): insert a donor
into an already descending-sorted list, placing it after every existing
entry with an equal or larger total, so that earlier-inserted contributors
keep ranking ahead on ties. -/
def insertRanked (d : Donor) : List Donor → List Donor
  | [] => [d]
  | e :: rest =>
      if e.totalDonated ≤ d.totalDonated then d :: e :: rest
      else e :: insertRanked d rest

/-- Modelled from the spec (part of `getDonorLeaderboard`): stable sort of
the donor rows by total donated, descending. -/
def rankDonors : List Donor → List Donor
  | [] => []
  | d :: rest => insertRanked d (rankDonors rest)

/-- Modelled from the spec: the leaderboard read `getDonorLeaderboard(limit)`
is declared in the frontend ABI and exercised by the repository's test suite
and documentation (which describes a bubble-sort leaderboard), but its
implementation is absent from `src/contracts/CharityDonation.sol`, which
only provides the unsorted `getAllDonors`.  Following the spec's words: the
contributors of the index, ranked by `ContributorTotal` descending, ties
broken by insertion order into the contributor index (earlier contributor
ranks higher), truncated to `limit` entries; a `limit` larger than the
contributor count returns all.  It is a pure function of the state. -/
def getDonorLeaderboard (s : State) (limit : Nat) : List Donor :=
  (rankDonors (getAllDonors s)).take limit

lemma insertRanked_perm (d : Donor) (l : List Donor) :
    (insertRanked d l).Perm (d :: l) := by
  induction l with
  | nil => exact List.Perm.refl _
  | cons e rest ih =>
      unfold insertRanked
      split
      · exact List.Perm.refl _
      · exact List.Perm.trans (List.Perm.cons e ih) (List.Perm.swap d e rest)

lemma insertRanked_sorted (d : Donor) (l : List Donor)
    (h : l.Pairwise (fun a b => b.totalDonated ≤ a.totalDonated)) :
    (insertRanked d l).Pairwise (fun a b => b.totalDonated ≤ a.totalDonated) := by
  induction l with
  | nil => simp [insertRanked]
  | cons e rest ih =>
      unfold insertRanked
      split
      · rename_i hle
        refine List.Pairwise.cons ?_ h
        intro x hx
        rcases List.mem_cons.mp hx with hxe | hxr
        · subst hxe
          exact hle
        · exact le_trans (List.rel_of_pairwise_cons h hxr) hle
      · rename_i hgt
        refine List.Pairwise.cons ?_ (ih (List.Pairwise.of_cons h))
        intro x hx
        have hx2 : x ∈ d :: rest := (insertRanked_perm d rest).mem_iff.mp hx
        rcases List.mem_cons.mp hx2 with hxd | hxr
        · subst hxd
          omega
        · exact List.rel_of_pairwise_cons h hxr

lemma rankDonors_perm (l : List Donor) : (rankDonors l).Perm l := by
  induction l with
  | nil => exact List.Perm.refl _
  | cons d rest ih =>
      exact List.Perm.trans (insertRanked_perm d (rankDonors rest))
        (List.Perm.cons d ih)

lemma rankDonors_sorted (l : List Donor) :
    (rankDonors l).Pairwise (fun a b => b.totalDonated ≤ a.totalDonated) := by
  induction l with
  | nil => exact List.Pairwise.nil
  | cons d rest ih => exact insertRanked_sorted d (rankDonors rest) ih

lemma insertRanked_filter (d : Donor) (l : List Donor) (t : Nat) :
    (insertRanked d l).filter (fun e => e.totalDonated == t)
      = (if d.totalDonated == t then [d] else [])
        ++ l.filter (fun e => e.totalDonated == t) := by
  induction l with
  | nil =>
      show [d].filter _ = _
      simp [List.filter_singleton]
  | cons e rest ih =>
      unfold insertRanked
      by_cases hle : e.totalDonated ≤ d.totalDonated
      · rw [if_pos hle]
        by_cases hd : (d.totalDonated == t) = true
        · simp [List.filter_cons, hd]
        · have hd2 : (d.totalDonated == t) = false := Bool.eq_false_iff.mpr hd
          simp [List.filter_cons, hd2]
      · rw [if_neg hle]
        by_cases hd : (d.totalDonated == t) = true
        · have hdt : d.totalDonated = t := by simpa using hd
          have he : (e.totalDonated == t) = false := by
            have hne : ¬ e.totalDonated = t := by omega
            simpa using hne
          simp [List.filter_cons, ih, hd, he]
        · have hd2 : (d.totalDonated == t) = false := Bool.eq_false_iff.mpr hd
          simp [List.filter_cons, ih, hd2]

lemma rankDonors_filter (l : List Donor) (t : Nat) :
    (rankDonors l).filter (fun e => e.totalDonated == t)
      = l.filter (fun e => e.totalDonated == t) := by
  induction l with
  | nil => rfl
  | cons d rest ih =>
      show (insertRanked d (rankDonors rest)).filter _ = _
      rw [insertRanked_filter, ih, List.filter_cons]
      split <;> rfl

/-- C2: the leaderboard read, given a limit, equals the stable descending
sort of the contributor rows truncated to `limit`: it is a permutation of
the index rows (each contributor with its `ContributorTotal`), sorted by
total descending; ties keep insertion order into the contributor index
(for every total value `t`, the ranked rows with total `t` appear exactly
in index order — the filter equation); the result has `min limit count`
entries and a `limit` of at least the contributor count returns all of
them.  The model is a pure function of the state, so no state is mutated.
(`getDonorLeaderboard` is modelled from the spec — see its doc comment.) -/
theorem leaderboard_spec (s : State) (limit : Nat) :
    getDonorLeaderboard s limit = (rankDonors (getAllDonors s)).take limit
  ∧ (rankDonors (getAllDonors s)).Perm (getAllDonors s)
  ∧ (rankDonors (getAllDonors s)).Pairwise
      (fun a b => b.totalDonated ≤ a.totalDonated)
  ∧ (getDonorLeaderboard s limit).Pairwise
      (fun a b => b.totalDonated ≤ a.totalDonated)
  ∧ (∀ t, (rankDonors (getAllDonors s)).filter (fun e => e.totalDonated == t)
      = (getAllDonors s).filter (fun e => e.totalDonated == t))
  ∧ (getDonorLeaderboard s limit).length = min limit (getAllDonors s).length
  ∧ ((getAllDonors s).length ≤ limit →
      getDonorLeaderboard s limit = rankDonors (getAllDonors s)) := by
  refine ⟨rfl, rankDonors_perm _, rankDonors_sorted _, ?_,
    fun t => rankDonors_filter _ t, ?_, ?_⟩
  · exact List.Pairwise.sublist (List.take_sublist limit _) (rankDonors_sorted _)
  · show ((rankDonors (getAllDonors s)).take limit).length = _
    rw [List.length_take, (rankDonors_perm (getAllDonors s)).length_eq]
  · intro hle
    show (rankDonors (getAllDonors s)).take limit = _
    apply List.take_of_length_le
    rw [(rankDonors_perm (getAllDonors s)).length_eq]
    exact hle

/-- Concrete scenario for the leaderboard: donor 11 gives 1, donor 22 gives
5, donor 11 gives 2 more (totals: 11 ↦ 3, 22 ↦ 5). -/
def sc7 : State := execOps sc0 [.donate 11 1 1 0, .donate 22 1 5 1, .donate 11 1 2 2]

/-- Sanity evaluation of the modelled leaderboard on `sc7`: donor 22 (total
5) ranks above donor 11 (total 3), as the repository's test expects. -/
lemma leaderboard_concrete_eval :
    getDonorLeaderboard sc7 10 =
      [{ donorAddress := 22, totalDonated := 5 },
       { donorAddress := 11, totalDonated := 3 }] := by
  decide

/-- Closed witness for `leaderboard_spec` on `sc7`. -/
theorem leaderboard_spec_witness :
    getDonorLeaderboard sc7 10 = rankDonors (getAllDonors sc7)
  ∧ (getDonorLeaderboard sc7 1).length = min 1 (getAllDonors sc7).length
  ∧ (rankDonors (getAllDonors sc7)).Pairwise
      (fun a b => b.totalDonated ≤ a.totalDonated)
  ∧ (rankDonors (getAllDonors sc7)).filter (fun e => e.totalDonated == 3)
      = (getAllDonors sc7).filter (fun e => e.totalDonated == 3) := by
  refine ⟨(leaderboard_spec sc7 10).2.2.2.2.2.2 (by decide),
    (leaderboard_spec sc7 1).2.2.2.2.2.1, (leaderboard_spec sc7 10).2.2.1,
    (leaderboard_spec sc7 10).2.2.2.2.1 3⟩

end CharityDonation
